import Mathlib

/-!
Verification of the stock-analysis scoring engine (`stock_analyzer.py`) of the
AI-StockAnalyzer repository.

Conventions of the shallow embedding:
* Python floats are modelled as `ℚ`.  Square roots (used by the source for
  standard deviations and the `√252` annualization factor) are irrational, so
  they are modelled by the explicit rational approximation `sqrtQ`; no claim
  proved in this file depends on the value of a square root.
* Python `None` is modelled by `Option`.  A numeric field that the source
  tests with `if x:` (truthiness) is falsy exactly when it is `none` or `0`.
* Division by zero in `ℚ` yields `0`; every place where the source can divide
  by zero (float `inf`/`NaN` semantics) is noted in a comment at the
  corresponding definition.
* Source dictionaries with a fixed key set are modelled as structures; the
  empty dictionary `{}` returned on degenerate inputs is modelled as `none`.
* Identifier differences from the source (imposed by the proof environment):
  `pe` for `pe_ratio`, `peg` for `peg_ratio`, `pb` for `price_to_book`,
  `payout` for `payout_ratio`, `sharpe` for `sharpe_ratio`, `sortino` for
  `sortino_ratio`, `volumeQuot` for `volume_ratio`, `openPrice` for `open`.
-/

namespace StockAnalyzer

/-- Price bar (table `daily_prices`): one row per trading day.  Dates are
modelled as naturals (ordinal day numbers); `openPrice` is the source's
`open` column. -/
structure PriceBar where
  date : ℕ
  openPrice : ℚ
  high : ℚ
  low : ℚ
  close : ℚ
  volume : ℚ
deriving Repr, DecidableEq

/-- Fundamentals row (`get_latest_fundamentals`): every column is nullable,
absence means unknown.  `pe` = `pe_ratio`, `pb` = `price_to_book`,
`peg` = `peg_ratio`, `payout` = `payout_ratio`. -/
structure Fundamentals where
  pe : Option ℚ
  peg : Option ℚ
  pb : Option ℚ
  debt_to_equity : Option ℚ
  roe : Option ℚ
  profit_margin : Option ℚ
  revenue_growth : Option ℚ
  earnings_growth : Option ℚ
  dividend_yield : Option ℚ
  payout : Option ℚ
  beta : Option ℚ
deriving Repr, DecidableEq

/-- Company metadata row (`get_company`). -/
structure Company where
  name : String
  sector : String
deriving Repr, DecidableEq

/-- Sum of a list of rationals. -/
def sumQ : List ℚ → ℚ
  | [] => 0
  | x :: xs => x + sumQ xs

/-- Arithmetic mean of a list (`Series.mean`); the empty list yields `0`
(the source produces NaN there, and every use below is on a nonempty list). -/
def meanQ (xs : List ℚ) : ℚ := sumQ xs / xs.length

/-- Last `n` elements of a list (a pandas trailing rolling window evaluated at
the final row, `Series.tail(n)`). -/
def lastN (xs : List ℚ) (n : ℕ) : List ℚ := xs.drop (xs.length - n)

/-- Last element of a list of rationals, `0` when empty (`Series.iloc[-1]`;
every use below is guarded so the list is nonempty). -/
def lastQ (xs : List ℚ) : ℚ := (xs.getLast?).getD 0

/-- Maximum of a list (`Series.max()`), `0` when empty. -/
def maxQ : List ℚ → ℚ
  | [] => 0
  | [x] => x
  | x :: y :: xs => max x (maxQ (y :: xs))

/-- Minimum of a list (`Series.min()`), `0` when empty. -/
def minQ : List ℚ → ℚ
  | [] => 0
  | [x] => x
  | x :: y :: xs => min x (minQ (y :: xs))

/-- Sample variance with one delta degree of freedom (pandas `Series.std()`
squared, `ddof=1`).  A list with fewer than two elements yields `0` via the
division-by-zero convention (the source produces NaN there; the divergence is
noted at each point of use). -/
def sampleVar (xs : List ℚ) : ℚ :=
  let m := meanQ xs
  sumQ (xs.map (fun x => (x - m) ^ 2)) / ((xs.length : ℚ) - 1)

/-- Rational approximation of the real square root, exact to about six decimal
digits.  The source computes floating-point square roots (`numpy.sqrt`,
`Series.std`); no claim in this file depends on the value of a square root. -/
def sqrtQ (q : ℚ) : ℚ :=
  if q ≤ 0 then 0 else ((Int.toNat ⌊q * 10 ^ 12⌋).sqrt : ℚ) / 10 ^ 6

/-- Sample standard deviation (pandas `Series.std()`, `ddof=1`), via `sqrtQ`. -/
def stdQ (xs : List ℚ) : ℚ := sqrtQ (sampleVar xs)

/-- Annualization factor `√252` used throughout the source, via `sqrtQ`. -/
def sqrt252 : ℚ := sqrtQ 252

/-- Consecutive differences of a list (`Series.diff()` without the leading
NaN): for `[x₀, x₁, …]` produce `[x₁ - x₀, x₂ - x₁, …]`. -/
def diffsQ : List ℚ → List ℚ
  | x :: y :: xs => (y - x) :: diffsQ (y :: xs)
  | _ => []

/-- Daily percent-change series (`Series.pct_change().dropna()`): one entry
per consecutive pair with nonzero previous close.  For a zero previous close
the source produces float `inf` (kept) or NaN (dropped); zero closes do not
occur in market data and the claims below never rely on that case. -/
def dailyReturns : List ℚ → List ℚ
  | x :: y :: xs =>
      if x = 0 then dailyReturns (y :: xs)
      else (y - x) / x :: dailyReturns (y :: xs)
  | _ => []

end StockAnalyzer

namespace StockAnalyzer

/-- Label for the P/E valuation factor (`pe_status`). -/
inductive PeStatus | excellent | veryLowRisky | acceptable | highUnknown
deriving Repr, DecidableEq

/-- Label for the price-to-book factor (`pb_status`). -/
inductive PbStatus | good | acceptable | highUnknown
deriving Repr, DecidableEq

/-- Label for the PEG factor (`peg_status`). -/
inductive PegStatus | excellent | acceptable | highUnknown
deriving Repr, DecidableEq

/-- Label for the return-on-equity factor (`roe_status`). -/
inductive RoeStatus | excellent | good | acceptable | lowUnknown
deriving Repr, DecidableEq

/-- Label for the profit-margin factor (`margin_status`). -/
inductive MarginStatus | excellent | good | acceptable | lowUnknown
deriving Repr, DecidableEq

/-- Label for the revenue-growth factor (`growth_status`). -/
inductive GrowthStatus | strong | good | positive | decliningUnknown
deriving Repr, DecidableEq

/-- Label for the debt-to-equity factor (`debt_status`). -/
inductive DebtStatus | lowDebt | moderateDebt | highDebt | veryHighDebt | unknown
deriving Repr, DecidableEq

/-- Label for the dividend-yield factor (`dividend_status`); the payload is
the yield interpolated into the source's label string. -/
inductive DividendStatus | healthy (y : ℚ) | good (y : ℚ) | paying (y : ℚ) | noDividend
deriving Repr, DecidableEq

/-- Label for the payout-ratio factor (`payout_status`). -/
inductive PayoutStatus | sustainable | moderate | highRisk | unknown
deriving Repr, DecidableEq

/-- Breakdown dictionary built by `score_fundamental_health`; one field per
key, in source insertion order. -/
structure FundBreakdown where
  pe_status : PeStatus
  pb_status : PbStatus
  peg_status : PegStatus
  valuation_score : ℤ
  roe_status : RoeStatus
  margin_status : MarginStatus
  growth_status : GrowthStatus
  profitability_score : ℤ
  debt_status : DebtStatus
  dividend_status : DividendStatus
  payout_status : PayoutStatus
  stability_score : ℤ
deriving Repr, DecidableEq

/-- P/E factor of the valuation block (source lines 320-331).  The `v ≠ 0`
conjunct is Python truthiness (`if pe and …`). -/
def peEval : Option ℚ → ℤ × PeStatus
  | none => (0, .highUnknown)
  | some v =>
    if v ≠ 0 ∧ 5 ≤ v ∧ v ≤ 25 then (8, .excellent)
    else if v ≠ 0 ∧ v < 5 then (4, .veryLowRisky)
    else if v ≠ 0 ∧ v ≤ 35 then (3, .acceptable)
    else (0, .highUnknown)

/-- Price-to-book factor (source lines 333-341). -/
def pbEval : Option ℚ → ℤ × PbStatus
  | none => (0, .highUnknown)
  | some v =>
    if v ≠ 0 ∧ 1/2 ≤ v ∧ v ≤ 3 then (4, .good)
    else if v ≠ 0 ∧ v ≤ 5 then (2, .acceptable)
    else (0, .highUnknown)

/-- PEG factor (source lines 343-351). -/
def pegEval : Option ℚ → ℤ × PegStatus
  | none => (0, .highUnknown)
  | some v =>
    if v ≠ 0 ∧ 1/2 ≤ v ∧ v ≤ 3/2 then (3, .excellent)
    else if v ≠ 0 ∧ v ≤ 2 then (1, .acceptable)
    else (0, .highUnknown)

/-- Return-on-equity factor (source lines 359-370). -/
def roeEval : Option ℚ → ℤ × RoeStatus
  | none => (0, .lowUnknown)
  | some v =>
    if v ≠ 0 ∧ 3/20 ≤ v then (8, .excellent)
    else if v ≠ 0 ∧ 1/10 ≤ v then (5, .good)
    else if v ≠ 0 ∧ 1/20 ≤ v then (2, .acceptable)
    else (0, .lowUnknown)

/-- Profit-margin factor (source lines 372-383). -/
def marginEval : Option ℚ → ℤ × MarginStatus
  | none => (0, .lowUnknown)
  | some v =>
    if v ≠ 0 ∧ 3/20 ≤ v then (4, .excellent)
    else if v ≠ 0 ∧ 2/25 ≤ v then (2, .good)
    else if v ≠ 0 ∧ 3/100 ≤ v then (1, .acceptable)
    else (0, .lowUnknown)

/-- Revenue-growth factor (source lines 385-396); a growth of exactly `0` is
falsy in Python, so it falls through to `Declining/Unknown`. -/
def growthEval : Option ℚ → ℤ × GrowthStatus
  | none => (0, .decliningUnknown)
  | some v =>
    if v ≠ 0 ∧ 1/10 ≤ v then (3, .strong)
    else if v ≠ 0 ∧ 1/20 ≤ v then (2, .good)
    else if v ≠ 0 ∧ 0 ≤ v then (1, .positive)
    else (0, .decliningUnknown)

/-- Debt-to-equity factor (source lines 404-418); the source tests
`is not None` (not truthiness), so a value of `0` is scored as low debt. -/
def debtEval : Option ℚ → ℤ × DebtStatus
  | none => (0, .unknown)
  | some v =>
    if v ≤ 3/10 then (5, .lowDebt)
    else if v ≤ 3/5 then (3, .moderateDebt)
    else if v ≤ 1 then (1, .highDebt)
    else (0, .veryHighDebt)

/-- Dividend-yield factor (source lines 420-431). -/
def divEval : Option ℚ → ℤ × DividendStatus
  | none => (0, .noDividend)
  | some v =>
    if v ≠ 0 ∧ 1/50 ≤ v ∧ v ≤ 3/50 then (3, .healthy v)
    else if v ≠ 0 ∧ v ≤ 2/25 then (2, .good v)
    else if v ≠ 0 ∧ 0 < v then (1, .paying v)
    else (0, .noDividend)

/-- Payout-ratio factor (source lines 433-443). -/
def payoutEval : Option ℚ → ℤ × PayoutStatus
  | none => (0, .unknown)
  | some v =>
    if v ≠ 0 ∧ 3/10 ≤ v ∧ v ≤ 3/5 then (2, .sustainable)
    else if v ≠ 0 ∧ v ≤ 4/5 then (1, .moderate)
    else if v ≠ 0 then (0, .highRisk)
    else (0, .unknown)

/-- Fundamental-health scorer (source lines 308-448).  Returns the sub-score
clamped to 40 together with the breakdown; `none` input models a falsy
fundamentals value (`if not fundamentals: return 0, {}`), whose breakdown is
the empty dictionary, modelled as `none`. -/
def score_fundamental_health : Option Fundamentals → ℤ × Option FundBreakdown
  | none => (0, none)
  | some f =>
    let pe := peEval f.pe
    let pb := pbEval f.pb
    let peg := pegEval f.peg
    let valuation_score := pe.1 + pb.1 + peg.1
    let roe := roeEval f.roe
    let margin := marginEval f.profit_margin
    let growth := growthEval f.revenue_growth
    let profitability_score := roe.1 + margin.1 + growth.1
    let debt := debtEval f.debt_to_equity
    let dividend := divEval f.dividend_yield
    let payoutE := payoutEval f.payout
    let stability_score := debt.1 + dividend.1 + payoutE.1
    let score := valuation_score + profitability_score + stability_score
    (min score 40,
     some ⟨pe.2, pb.2, peg.2, valuation_score, roe.2, margin.2, growth.2,
           profitability_score, debt.2, dividend.2, payoutE.2, stability_score⟩)

end StockAnalyzer

namespace StockAnalyzer

/-- Technical indicator dictionary produced by `calculate_technical_indicators`
(source lines 98-119 / 128-149): every key is always present; `sma_200` is the
only nullable value.  `volumeQuot` is the source's `volume_ratio`;
`week52High`, `week52Low`, `week52Position` are `52_week_high`, `52_week_low`
and `52_week_position`. -/
structure TechnicalIndicators where
  current_price : ℚ
  sma_20 : ℚ
  sma_50 : ℚ
  sma_200 : Option ℚ
  rsi : ℚ
  bb_position : ℚ
  bb_upper : ℚ
  bb_lower : ℚ
  macd : ℚ
  macd_signal : ℚ
  macd_histogram : ℚ
  volumeQuot : ℚ
  atr : ℚ
  week52High : ℚ
  week52Low : ℚ
  week52Position : ℚ
  trend_strength : ℚ
  support_level : ℚ
  resistance_level : ℚ
  volatility : ℚ
deriving Repr, DecidableEq

/-- Performance dictionary produced by `calculate_performance_metrics` when
the series has at least 10 bars: the period returns are present only with
enough history; the risk statistics and `momentum_score` are always present. -/
structure PerformanceMetrics where
  return1W : Option ℚ
  return1M : Option ℚ
  return3M : Option ℚ
  return6M : Option ℚ
  return1Y : Option ℚ
  volatility : ℚ
  var95 : ℚ
  sharpe : ℚ
  sortino : ℚ
  max_drawdown : ℚ
  downside_deviation : ℚ
  momentum_score : ℚ
deriving Repr, DecidableEq

/-- Label for `sma_20_status`. -/
inductive Sma20Status | above | below
deriving Repr, DecidableEq

/-- Label for `sma_50_status`. -/
inductive Sma50Status | above | below
deriving Repr, DecidableEq

/-- Label for `sma_200_status`. -/
inductive Sma200Status | aboveBull | belowBear | insufficientData
deriving Repr, DecidableEq

/-- Label for `ma_alignment`. -/
inductive MaAlignment | bullish | bearishNeutral
deriving Repr, DecidableEq

/-- Label for `rsi_status`; payloads carry the RSI value interpolated into
the source's label string. -/
inductive RsiStatus
  | neutralZone (r : ℚ) | normalRange (r : ℚ) | oversold (r : ℚ)
  | overbought (r : ℚ) | other (r : ℚ) | unknown
deriving Repr, DecidableEq

/-- Label for `macd_status`. -/
inductive MacdStatus | bullish | bearish
deriving Repr, DecidableEq

/-- Label for `volume_status`. -/
inductive VolumeStatus | high | aboveAverage | normal
deriving Repr, DecidableEq

/-- Label for `bb_status`. -/
inductive BbStatus | middle | normalRange | nearLower | nearUpper | unknown
deriving Repr, DecidableEq

/-- Label for `52_week_status`. -/
inductive Week52Status | strong | good | nearLow | nearHigh | unknown
deriving Repr, DecidableEq

/-- Breakdown dictionary built by `score_technical_strength`. -/
structure TechBreakdown where
  sma_20_status : Sma20Status
  sma_50_status : Sma50Status
  sma_200_status : Sma200Status
  ma_alignment : MaAlignment
  trend_score : ℤ
  rsi_status : RsiStatus
  macd_status : MacdStatus
  volume_status : VolumeStatus
  bb_status : BbStatus
  momentum_score : ℤ
  week52Status : Week52Status
  position_score : ℤ
deriving Repr, DecidableEq

/-- SMA20 trend factor (source lines 466-470); `sma_20` must be truthy. -/
def sma20Cmp (current sma20 : ℚ) : ℤ × Sma20Status :=
  if sma20 ≠ 0 ∧ sma20 < current then (3, .above) else (0, .below)

/-- SMA50 trend factor (source lines 472-476). -/
def sma50Cmp (current sma50 : ℚ) : ℤ × Sma50Status :=
  if sma50 ≠ 0 ∧ sma50 < current then (4, .above) else (0, .below)

/-- SMA200 trend factor (source lines 478-484); `none` and `some 0` are both
falsy, giving the insufficient-data label. -/
def sma200Cmp (current : ℚ) : Option ℚ → ℤ × Sma200Status
  | none => (0, .insufficientData)
  | some v =>
    if v ≠ 0 ∧ v < current then (5, .aboveBull)
    else if v ≠ 0 then (0, .belowBear)
    else (0, .insufficientData)

/-- Moving-average alignment factor (source lines 486-490). -/
def alignCmp (sma20 sma50 : ℚ) : ℤ × MaAlignment :=
  if sma20 ≠ 0 ∧ sma50 ≠ 0 ∧ sma50 < sma20 then (3, .bullish) else (0, .bearishNeutral)

/-- RSI momentum factor (source lines 498-514); an RSI of exactly `0` is
falsy and yields the unknown label. -/
def rsiCmp (r : ℚ) : ℤ × RsiStatus :=
  if r ≠ 0 then
    if 40 ≤ r ∧ r ≤ 60 then (3, .neutralZone r)
    else if 30 ≤ r ∧ r ≤ 70 then (2, .normalRange r)
    else if r ≤ 30 then (1, .oversold r)
    else if 70 ≤ r then (0, .overbought r)
    else (0, .other r)
  else (0, .unknown)

/-- MACD momentum factor (source lines 517-523). -/
def macdCmp (m s : ℚ) : ℤ × MacdStatus :=
  if s < m then (2, .bullish) else (0, .bearish)

/-- Volume momentum factor (source lines 526-534). -/
def volumeCmp (v : ℚ) : ℤ × VolumeStatus :=
  if 3/2 < v then (2, .high) else if 6/5 < v then (1, .aboveAverage) else (0, .normal)

/-- Bollinger-position momentum factor (source lines 537-551); a position of
exactly `0` is falsy and yields the unknown label. -/
def bbCmp (b : ℚ) : ℤ × BbStatus :=
  if b ≠ 0 then
    if 3/10 ≤ b ∧ b ≤ 7/10 then (3, .middle)
    else if 1/10 ≤ b ∧ b ≤ 9/10 then (2, .normalRange)
    else if b ≤ 1/5 then (1, .nearLower)
    else (0, .nearUpper)
  else (0, .unknown)

/-- 52-week position factor (source lines 559-574): the source guards the
whole table with `if week_52_pos:`, so a position of exactly `0` (price at the
52-week low) is falsy and scores `0` with the unknown label rather than
reaching the `<= 0.3` row of the table. -/
def positionEval (p : ℚ) : ℤ × Week52Status :=
  if p ≠ 0 then
    if 1/2 ≤ p ∧ p ≤ 4/5 then (5, .strong)
    else if 3/10 ≤ p ∧ p ≤ 9/10 then (3, .good)
    else if p ≤ 3/10 then (2, .nearLow)
    else (1, .nearHigh)
  else (0, .unknown)

/-- Technical-strength scorer (source lines 450-579); the sub-score is
clamped to 30.  `none` models a falsy technical dictionary. -/
def score_technical_strength : Option TechnicalIndicators → ℤ × Option TechBreakdown
  | none => (0, none)
  | some t =>
    let current := t.current_price
    let s20 := sma20Cmp current t.sma_20
    let s50 := sma50Cmp current t.sma_50
    let s200 := sma200Cmp current t.sma_200
    let al := alignCmp t.sma_20 t.sma_50
    let trend_score := s20.1 + s50.1 + s200.1 + al.1
    let rs := rsiCmp t.rsi
    let mc := macdCmp t.macd t.macd_signal
    let vc := volumeCmp t.volumeQuot
    let bc := bbCmp t.bb_position
    let momentum_score := rs.1 + mc.1 + vc.1 + bc.1
    let pc := positionEval t.week52Position
    let position_score := pc.1
    let score := trend_score + momentum_score + position_score
    (min score 30,
     some ⟨s20.2, s50.2, s200.2, al.2, trend_score, rs.2, mc.2, vc.2, bc.2,
           momentum_score, pc.2, position_score⟩)

end StockAnalyzer

namespace StockAnalyzer

/-- Label for `1m_performance`. -/
inductive OneMStatus | strong (r : ℚ) | positive (r : ℚ) | negative (r : ℚ) | unknown
deriving Repr, DecidableEq

/-- Label for `1y_performance`. -/
inductive OneYStatus
  | excellent (r : ℚ) | good (r : ℚ) | positive (r : ℚ) | negative (r : ℚ) | unknown
deriving Repr, DecidableEq

/-- Label for `sharpe_status`. -/
inductive SharpeStatus | excellent (v : ℚ) | good (v : ℚ) | positive (v : ℚ) | poor (v : ℚ)
deriving Repr, DecidableEq

/-- Label for `sortino_status`. -/
inductive SortinoStatus | excellent (v : ℚ) | good (v : ℚ) | needsImprovement (v : ℚ)
deriving Repr, DecidableEq

/-- Label for `volatility_status`. -/
inductive VolatilityStatus | lowRisk (v : ℚ) | moderateRisk (v : ℚ) | highRisk (v : ℚ)
deriving Repr, DecidableEq

/-- Label for `drawdown_status`. -/
inductive DrawdownStatus | excellent (v : ℚ) | good (v : ℚ) | acceptable (v : ℚ) | high (v : ℚ)
deriving Repr, DecidableEq

/-- Breakdown dictionary built by `score_momentum_quality`;
`positive_periods` is the count interpolated into the source's
`'k/4 periods positive'` label. -/
structure MomBreakdown where
  positive_periods : ℕ
  oneM : OneMStatus
  oneY : OneYStatus
  performance_score : ℤ
  sharpe_status : SharpeStatus
  sortino_status : SortinoStatus
  volatility_status : VolatilityStatus
  risk_score : ℤ
  drawdown_status : DrawdownStatus
  drawdown_score : ℤ
deriving Repr, DecidableEq

/-- One-month performance factor (source lines 607-616); the return has
already been defaulted to `0` by `.get`, so `0` is falsy → unknown. -/
def m1Cmp (r : ℚ) : ℤ × OneMStatus :=
  if r ≠ 0 ∧ 1/20 < r then (3, .strong r)
  else if r ≠ 0 ∧ 0 < r then (1, .positive r)
  else if r ≠ 0 then (0, .negative r)
  else (0, .unknown)

/-- One-year performance factor (source lines 618-630). -/
def y1Cmp (r : ℚ) : ℤ × OneYStatus :=
  if r ≠ 0 ∧ 3/20 < r then (4, .excellent r)
  else if r ≠ 0 ∧ 1/20 < r then (2, .good r)
  else if r ≠ 0 ∧ 0 < r then (1, .positive r)
  else if r ≠ 0 then (0, .negative r)
  else (0, .unknown)

/-- Sharpe factor (source lines 638-649). -/
def sharpeCmp (v : ℚ) : ℤ × SharpeStatus :=
  if 1 < v then (6, .excellent v)
  else if 1/2 < v then (4, .good v)
  else if 0 < v then (2, .positive v)
  else (0, .poor v)

/-- Sortino factor (source lines 651-659). -/
def sortinoCmp (v : ℚ) : ℤ × SortinoStatus :=
  if 1 < v then (2, .excellent v)
  else if 1/2 < v then (1, .good v)
  else (0, .needsImprovement v)

/-- Volatility factor of the momentum scorer (source lines 661-669). -/
def volCmp (v : ℚ) : ℤ × VolatilityStatus :=
  if v < 1/5 then (2, .lowRisk v)
  else if v < 2/5 then (1, .moderateRisk v)
  else (0, .highRisk v)

/-- Drawdown factor (source lines 677-688). -/
def ddCmp (d : ℚ) : ℤ × DrawdownStatus :=
  if -1/10 < d then (3, .excellent d)
  else if -1/5 < d then (2, .good d)
  else if -3/10 < d then (1, .acceptable d)
  else (0, .high d)

/-- Momentum/quality scorer (source lines 581-693); the sub-score is clamped
to 30.  `none` models the empty performance dictionary.  The four returns are
defaulted to `0` by `.get(…, 0)`, so the positive-period count is over the
full four-element list. -/
def score_momentum_quality : Option PerformanceMetrics → ℤ × Option MomBreakdown
  | none => (0, none)
  | some p =>
    let r1w := p.return1W.getD 0
    let r1m := p.return1M.getD 0
    let r3m := p.return3M.getD 0
    let r1y := p.return1Y.getD 0
    let positive_periods := ([r1w, r1m, r3m, r1y].countP (fun r => decide (0 < r)))
    let m1 := m1Cmp r1m
    let y1 := y1Cmp r1y
    let performance_score := 2 * (positive_periods : ℤ) + m1.1 + y1.1
    let sh := sharpeCmp p.sharpe
    let so := sortinoCmp p.sortino
    let vo := volCmp p.volatility
    let risk_score := sh.1 + so.1 + vo.1
    let dd := ddCmp p.max_drawdown
    let drawdown_score := dd.1
    let score := performance_score + risk_score + drawdown_score
    (min score 30,
     some ⟨positive_periods, m1.2, y1.2, performance_score, sh.2, so.2, vo.2,
           risk_score, dd.2, drawdown_score⟩)

/-- Breakdown dictionary built by `calculate_risk_score`. -/
structure RiskBreakdown where
  volatility_risk : ℤ
  beta_risk : ℤ
  leverage_risk : ℤ
  technical_risk : ℤ
  drawdown_risk : ℤ
deriving Repr, DecidableEq

/-- Volatility risk component (source lines 700-709), at least 5. -/
def volRiskCmp (volatility : ℚ) : ℤ :=
  if 3/5 < volatility then 30
  else if 2/5 < volatility then 20
  else if 1/4 < volatility then 10
  else 5

/-- Beta risk component (source lines 714-723), at least 5 (a very low beta
is also scored as risky). -/
def betaRiskCmp (beta : ℚ) : ℤ :=
  if 3/2 < beta then 20
  else if 6/5 < beta then 15
  else if 4/5 < beta then 5
  else 10

/-- Financial-leverage risk component (source lines 728-739); an unknown
debt-to-equity counts as moderate risk. -/
def leverageRiskCmp : Option ℚ → ℤ
  | none => 10
  | some v => if 3/2 < v then 25 else if 1 < v then 15 else if 1/2 < v then 5 else 0

/-- Technical-extremes risk component (source lines 744-757). -/
def techRiskCmp (rsi bb_position : ℚ) : ℤ :=
  (if 80 < rsi ∨ rsi < 20 then 8 else if 70 < rsi ∨ rsi < 30 then 4 else 0) +
  (if 9/10 < bb_position ∨ bb_position < 1/10 then 7
   else if 4/5 < bb_position ∨ bb_position < 1/5 then 3 else 0)

/-- Drawdown risk component (source lines 762-773). -/
def ddRiskCmp (max_drawdown : ℚ) : ℤ :=
  if max_drawdown < -2/5 then 10
  else if max_drawdown < -3/10 then 8
  else if max_drawdown < -1/5 then 5
  else if max_drawdown < -1/10 then 2
  else 0

/-- Risk scorer (source lines 695-779): sums five component risks and caps at
100.  The result is `none` exactly when the fundamentals row exists but its
`beta` column is NULL: `fundamentals.get('beta', 1.0)` then returns `None`
(the key is present) and `beta > 1.5` raises `TypeError`, which propagates to
the orchestrator's exception handler. -/
def calculate_risk_score (technical : Option TechnicalIndicators)
    (performance : Option PerformanceMetrics) (fundamentals : Option Fundamentals) :
    Option (ℤ × RiskBreakdown) :=
  let volatility := match performance with | some p => p.volatility | none => 3/10
  let vol_risk := volRiskCmp volatility
  match (match fundamentals with | some f => f.beta | none => some 1) with
  | none => none
  | some beta =>
    let beta_risk := betaRiskCmp beta
    let leverage_risk :=
      leverageRiskCmp (match fundamentals with | some f => f.debt_to_equity | none => none)
    let rsi := match technical with | some t => t.rsi | none => 50
    let bb_position := match technical with | some t => t.bb_position | none => 1/2
    let tech_risk := techRiskCmp rsi bb_position
    let dd_risk := ddRiskCmp (match performance with | some p => p.max_drawdown | none => 0)
    let risk_score := vol_risk + beta_risk + leverage_risk + tech_risk + dd_risk
    some (min 100 risk_score, ⟨vol_risk, beta_risk, leverage_risk, tech_risk, dd_risk⟩)

/-- Pricing dictionary built by `calculate_target_pricing`. -/
structure Pricing where
  current_price : ℚ
  conservative_buy_price : ℚ
  aggressive_buy_price : ℚ
  target_price : ℚ
  upside_potential : ℚ
  support_level : ℚ
  resistance_level : ℚ
deriving Repr, DecidableEq

/-- Target pricing (source lines 781-849).  Up to three candidate targets are
averaged (P/E-implied fair value, resistance above price, momentum-adjusted
52-week high), with a 15%-upside fallback; the final target is clamped to
`[price·1.05, price·2.0]`.  `upside_potential` divides by `current_price`
(`0/0` float NaN for a zero price; `ℚ` yields `0`). -/
def calculate_target_pricing (fundamentals : Option Fundamentals)
    (technical : Option TechnicalIndicators) (performance : Option PerformanceMetrics) :
    Pricing :=
  let current_price := match technical with | some t => t.current_price | none => 100
  let support_level := match technical with | some t => t.support_level | none => current_price * (9/10)
  let conservative_buy := min (current_price * (17/20)) support_level
  let aggressive_buy := current_price * (9/10)
  let m1 : List ℚ :=
    match fundamentals with
    | some f =>
      match f.pe, f.earnings_growth with
      | some current_pe, some growth_rate =>
        if current_pe ≠ 0 ∧ growth_rate ≠ 0 then
          let fair_pe := min (max (growth_rate * 100 * (4/5)) 10) 25
          [current_price / current_pe * fair_pe]
        else []
      | _, _ => []
    | none => []
  let m2 : List ℚ :=
    match technical with
    | some t =>
      if t.resistance_level ≠ 0 ∧ current_price < t.resistance_level then [t.resistance_level]
      else []
    | none => []
  let m3 : List ℚ :=
    match technical with
    | some t =>
      if t.week52High ≠ 0 then
        let ms : ℚ := match performance with | some p => p.momentum_score | none => 50
        [if 70 < ms then t.week52High * (11/10)
         else if 50 < ms then t.week52High
         else t.week52High * (9/10)]
      else []
    | none => []
  let target_methods := m1 ++ m2 ++ m3
  let target0 := if target_methods.isEmpty then current_price * (23/20) else meanQ target_methods
  let target_price := max (current_price * (21/20)) (min target0 (current_price * 2))
  let upside_potential := (target_price - current_price) / current_price
  ⟨current_price, conservative_buy, aggressive_buy, target_price, upside_potential,
   (match technical with | some t => t.support_level | none => current_price * (19/20)),
   (match technical with | some t => t.resistance_level | none => current_price * (21/20))⟩

/-- Recommendation decision table (source lines 851-866), evaluated top-down,
first match wins. -/
def get_investment_recommendation (total_score risk_score : ℤ) (upside_potential : ℚ) :
    String :=
  if 80 ≤ total_score ∧ risk_score < 40 ∧ 3/20 < upside_potential then "STRONG BUY"
  else if 70 ≤ total_score ∧ risk_score < 50 ∧ 1/10 < upside_potential then "BUY"
  else if 60 ≤ total_score ∧ risk_score < 60 then "MODERATE BUY"
  else if 50 ≤ total_score ∧ risk_score < 70 then "HOLD"
  else if 40 ≤ total_score then "WEAK HOLD"
  else if 30 ≤ total_score then "CONSIDER SELLING"
  else "SELL"

/-- Rank of a recommendation label in the decision table's order
(SELL lowest, STRONG BUY highest). -/
def recRank : String → ℕ
  | "CONSIDER SELLING" => 1
  | "WEAK HOLD" => 2
  | "HOLD" => 3
  | "MODERATE BUY" => 4
  | "BUY" => 5
  | "STRONG BUY" => 6
  | _ => 0

end StockAnalyzer

namespace StockAnalyzer

/-- Last close of the (possibly absent, possibly empty) price frame, with the
source's fallback of `100` (source line 127). -/
def lastClose : Option (List PriceBar) → ℚ
  | some bars => match bars.getLast? with | some b => b.close | none => 100
  | none => 100

/-- Default indicator set returned below 10 bars or on computation failure
(source `_get_default_technical_indicators`, lines 125-149). -/
def get_default_technical_indicators (df : Option (List PriceBar)) : TechnicalIndicators :=
  let current_price := lastClose df
  { current_price := current_price
    sma_20 := current_price
    sma_50 := current_price
    sma_200 := none
    rsi := 50
    bb_position := 1/2
    bb_upper := current_price * (11/10)
    bb_lower := current_price * (9/10)
    macd := 0
    macd_signal := 0
    macd_histogram := 0
    volumeQuot := 1
    atr := current_price * (1/50)
    week52High := current_price
    week52Low := current_price
    week52Position := 1/2
    trend_strength := 0
    support_level := current_price * (19/20)
    resistance_level := current_price * (21/20)
    volatility := 3/10 }

/-- Exponentially weighted mean with `adjust=True` (pandas `Series.ewm`),
accumulating weighted numerator and denominator. -/
def ewmAcc (a : ℚ) : List ℚ → ℚ → ℚ → List ℚ
  | [], _, _ => []
  | x :: xs, num, den =>
    let num2 := (1 - a) * num + x
    let den2 := (1 - a) * den + 1
    num2 / den2 :: ewmAcc a xs num2 den2

/-- Full exponentially weighted mean series; for `span = s` pandas uses
`α = 2/(s+1)`. -/
def ewmQ (a : ℚ) (xs : List ℚ) : List ℚ := ewmAcc a xs 0 0

/-- True-range series (source lines 72-78) for bars `1, …, n-1`; the source's
row 0 is NaN (no previous close) and is accounted for at the ATR below. -/
def trueRanges : List PriceBar → List ℚ
  | b1 :: b2 :: rest =>
    max (b2.high - b2.low) (max |b2.high - b1.close| |b2.low - b1.close|) ::
      trueRanges (b2 :: rest)
  | _ => []

/-- Trend strength (source `_calculate_trend_strength`, lines 151-175):
least-squares slope of the last 20 closes against the bar index, normalized
by `(slope·20)/range` and clamped to `[-1, 1]`. -/
def trendStrength (df : List PriceBar) : ℚ :=
  if df.length < 20 then 0
  else
    let ys := (df.map (·.close)).drop (df.length - 20)
    let n : ℚ := ys.length
    let xs := (List.range ys.length).map (fun i => (i : ℚ))
    let sx := sumQ xs
    let sy := sumQ ys
    let sxy := sumQ (List.zipWith (· * ·) xs ys)
    let sxx := sumQ (xs.map (fun x => x ^ 2))
    let slope := (n * sxy - sx * sy) / (n * sxx - sx ^ 2)
    let price_range := maxQ ys - minQ ys
    if 0 < price_range then max (-1) (min 1 (slope * n / price_range)) else 0

/-- Centered five-bar rolling maximum at index `i` (pandas
`rolling(window=5, center=True).max()`): defined only where the full window
fits (`min_periods` defaults to the window size, NaN at the edges). -/
def centeredMax5 (xs : List ℚ) (i : ℕ) : Option ℚ :=
  if 2 ≤ i ∧ i + 2 < xs.length then
    some (maxQ [xs.getD (i-2) 0, xs.getD (i-1) 0, xs.getD i 0,
                xs.getD (i+1) 0, xs.getD (i+2) 0])
  else none

/-- Centered five-bar rolling minimum at index `i`. -/
def centeredMin5 (xs : List ℚ) (i : ℕ) : Option ℚ :=
  if 2 ≤ i ∧ i + 2 < xs.length then
    some (minQ [xs.getD (i-2) 0, xs.getD (i-1) 0, xs.getD i 0,
                xs.getD (i+1) 0, xs.getD (i+2) 0])
  else none

/-- Values that are local maxima of their centered five-bar window
(source line 191: `highs[highs == recent_data['high']].dropna()`). -/
def localMaxLevels (xs : List ℚ) : List ℚ :=
  (List.range xs.length).filterMap (fun i =>
    match centeredMax5 xs i with
    | some m => if m = xs.getD i 0 then some (xs.getD i 0) else none
    | none => none)

/-- Values that are local minima of their centered five-bar window. -/
def localMinLevels (xs : List ℚ) : List ℚ :=
  (List.range xs.length).filterMap (fun i =>
    match centeredMin5 xs i with
    | some m => if m = xs.getD i 0 then some (xs.getD i 0) else none
    | none => none)

/-- Support and resistance (source `_calculate_support_resistance`, lines
177-210): nearest local-max level strictly above the current price (default
`price·1.05`) and nearest local-min level strictly below (default
`price·0.95`). -/
def calcSupportResistance (df : List PriceBar) : ℚ × ℚ :=
  let current := lastQ (df.map (·.close))
  if df.length < 20 then (current * (19/20), current * (21/20))
  else
    let period := min 50 df.length
    let recent := df.drop (df.length - period)
    let resistance_levels := localMaxLevels (recent.map (·.high))
    let support_levels := localMinLevels (recent.map (·.low))
    let above := resistance_levels.filter (fun x => decide (current < x))
    let resistance := if above.isEmpty then current * (21/20) else minQ above
    let below := support_levels.filter (fun x => decide (x < current))
    let support := if below.isEmpty then current * (19/20) else maxQ below
    (support, resistance)

/-- Success path of the indicator engine (source lines 26-119), reached for
frames of at least 10 bars; the frame is first sorted by date.  Float
specifics folded into the translation and noted here:
* RSI with zero average loss is `inf`-arithmetic in the source, giving RSI
  100 when the average gain is positive, and the NaN → 50 fallback of source
  line 103 when gain and loss are both zero.
* The row-0 true range is NaN, so for frames of at most 14 bars the ATR
  window contains it and the source's NaN → 0 fallback (line 111) applies.
* `volume_ratio` falls back to 1 when the volume average is 0 (NaN check,
  line 110); a positive last volume over a zero average (float `inf`) cannot
  occur with nonnegative volumes.
* Standard deviations go through `sqrtQ`. -/
def calcTechFull (bars : List PriceBar) : TechnicalIndicators :=
  let df := List.insertionSort (fun a b => a.date ≤ b.date) bars
  let n := df.length
  let closes := df.map (·.close)
  let current_price := lastQ closes
  let sma_20 := meanQ (lastN closes (min 20 n))
  let sma_50 := meanQ (lastN closes (min 50 n))
  let sma_200 := if 200 ≤ n then some (meanQ (lastN closes 200)) else none
  let w := min 14 (n / 3)
  let deltas := diffsQ closes
  let gains := (0 : ℚ) :: deltas.map (fun d => if 0 < d then d else 0)
  let losses := (0 : ℚ) :: deltas.map (fun d => if d < 0 then -d else 0)
  let gm := meanQ (lastN gains w)
  let lm := meanQ (lastN losses w)
  let rsi := if 2 ≤ w then
      (if lm = 0 then (if gm = 0 then 50 else 100) else 100 - 100 / (1 + gm / lm))
    else 50
  let bw := min 20 (n / 2)
  let bbWin := if 5 ≤ bw then lastN closes bw else closes
  let bb_middle := meanQ bbWin
  let bb_std := stdQ bbWin
  let bb_upper := bb_middle + bb_std * 2
  let bb_lower := bb_middle - bb_std * 2
  let bb_range := bb_upper - bb_lower
  let bb_position := if 0 < bb_range then (current_price - bb_lower) / bb_range else 1/2
  let macdTriple : ℚ × ℚ × ℚ :=
    if 26 ≤ n then
      let e12 := ewmQ (2/13) closes
      let e26 := ewmQ (2/27) closes
      let macdSeries := List.zipWith (· - ·) e12 e26
      let sigSeries := ewmQ (2/10) macdSeries
      let m := lastQ macdSeries
      let s := lastQ sigSeries
      (m, s, m - s)
    else (0, 0, 0)
  let vols := df.map (·.volume)
  let volume_sma := meanQ (lastN vols (min 20 n))
  let lastVol := lastQ vols
  let volumeQuot := if volume_sma = 0 then 1 else lastVol / volume_sma
  let trs := trueRanges df
  let atr := if 15 ≤ n then meanQ (lastN trs 14) else 0
  let p52 := min 252 n
  let week52High := maxQ (lastN (df.map (·.high)) p52)
  let week52Low := minQ (lastN (df.map (·.low)) p52)
  let week52Position :=
    if week52High = week52Low then 1/2
    else (current_price - week52Low) / (week52High - week52Low)
  let sr := calcSupportResistance df
  let volatility := if 10 < n then stdQ (dailyReturns closes) * sqrt252 else 3/10
  { current_price := current_price
    sma_20 := sma_20
    sma_50 := sma_50
    sma_200 := sma_200
    rsi := rsi
    bb_position := bb_position
    bb_upper := bb_upper
    bb_lower := bb_lower
    macd := macdTriple.1
    macd_signal := macdTriple.2.1
    macd_histogram := macdTriple.2.2
    volumeQuot := volumeQuot
    atr := atr
    week52High := week52High
    week52Low := week52Low
    week52Position := week52Position
    trend_strength := trendStrength df
    support_level := sr.1
    resistance_level := sr.2
    volatility := volatility }

/-- Indicator engine (source lines 21-123): frames that are absent or have
fewer than 10 bars get the fixed default set; the exception fallback of line
121 is unreachable in the model, every division being guarded. -/
def calculate_technical_indicators (df : Option (List PriceBar)) : TechnicalIndicators :=
  match df with
  | none => get_default_technical_indicators none
  | some bars =>
    if bars.length < 10 then get_default_technical_indicators (some bars)
    else calcTechFull bars

end StockAnalyzer

namespace StockAnalyzer

/-- Step function mapping a period return and its weight to a momentum
contribution (source lines 287-304). -/
def contribution (r w : ℚ) : ℚ :=
  if 1/5 < r then 25 * w
  else if 1/10 < r then 15 * w
  else if 1/20 < r then 10 * w
  else if 0 < r then 5 * w
  else if -1/20 < r then -5 * w
  else if -1/10 < r then -10 * w
  else -20 * w

/-- Momentum score from the period-return dictionary (source
`_calculate_momentum_score`, lines 277-306): baseline 50, weighted
contributions for the periods present, clamped to `[0, 100]`. -/
def momentumFromReturns (rs : List (Option ℚ × ℚ)) : ℚ :=
  let s := 50 + sumQ (rs.map (fun rw =>
    match rw.1 with
    | some r => contribution r rw.2
    | none => 0))
  max 0 (min 100 s)

/-- Linear-interpolation quantile (pandas `Series.quantile`, default
`interpolation='linear'`): index `h = (n-1)·q` into the ascending sort. -/
def quantileQ (xs : List ℚ) (q : ℚ) : ℚ :=
  let s := List.insertionSort (fun a b : ℚ => a ≤ b) xs
  let h : ℚ := ((s.length : ℚ) - 1) * q
  let i : ℕ := Int.toNat ⌊h⌋
  let lo := s.getD i 0
  let hi := s.getD (i + 1) 0
  lo + (h - ⌊h⌋) * (hi - lo)

/-- Cumulative products of a list with accumulator (`Series.cumprod()`). -/
def cumProdAcc (acc : ℚ) : List ℚ → List ℚ
  | [] => []
  | x :: xs => (acc * x) :: cumProdAcc (acc * x) xs

/-- Cumulative products of a list (`Series.cumprod()`). -/
def cumProd (xs : List ℚ) : List ℚ := cumProdAcc 1 xs

/-- Running maxima after the head, with accumulator. -/
def runningMaxAcc (m : ℚ) : List ℚ → List ℚ
  | [] => []
  | x :: xs => (max m x) :: runningMaxAcc (max m x) xs

/-- Running maxima of a list (`Series.expanding().max()`). -/
def runningMax : List ℚ → List ℚ
  | [] => []
  | x :: xs => x :: runningMaxAcc x xs

/-- Performance and risk engine (source `calculate_performance_metrics`,
lines 212-275).  Frames with fewer than 10 bars yield the empty dictionary
(`none`).  Risk statistics are computed only when strictly more than 10 daily
returns exist, otherwise the fixed defaults of lines 256-261 apply.  Float
specifics noted here:
* a single negative daily return gives NaN downside deviation in the source
  (`ddof=1` over one sample); the model's division-by-zero convention yields
  `0` there, and the Sortino guard `0 < downside` matches `NaN > 0 = False`;
* a nonpositive running-max cumulative return (total loss of over 100%)
  divides by zero or a negative number in the drawdown; the `ℚ` convention
  applies and no claim relies on that case;
* standard deviations go through `sqrtQ`. -/
def calculate_performance_metrics (df : List PriceBar) : Option PerformanceMetrics :=
  if df.length < 10 then none
  else
    let closes := df.map (·.close)
    let n := closes.length
    let current_price := lastQ closes
    let retP : ℕ → Option ℚ := fun days =>
      if days < n then
        let old := closes.getD (n - (days + 1)) 0
        if 0 < old then some ((current_price - old) / old) else none
      else none
    let dr := dailyReturns closes
    let stats : ℚ × ℚ × ℚ × ℚ × ℚ × ℚ :=
      if 10 < dr.length then
        let volatility := stdQ dr * sqrt252
        let var95 := quantileQ dr (1/20)
        let excess := meanQ dr * 252 - 1/50
        let sharpe := if 0 < volatility then excess / volatility else 0
        let cum := cumProd (dr.map (fun r => 1 + r))
        let runMax := runningMax cum
        let drawdowns := List.zipWith (fun c m => (c - m) / m) cum runMax
        let max_drawdown := minQ drawdowns
        let negs := dr.filter (fun r => decide (r < 0))
        let downside := if negs.isEmpty then 0 else stdQ negs * sqrt252
        let sortino := if 0 < downside then excess / downside else 0
        (volatility, var95, sharpe, sortino, max_drawdown, downside)
      else (3/10, -1/20, 0, 0, 0, 1/5)
    let r1w := retP 5
    let r1m := retP 21
    let r3m := retP 63
    let r6m := retP 126
    let r1y := retP 252
    let momentum := momentumFromReturns
      [(r1w, 3/10), (r1m, 3/10), (r3m, 1/5), (r6m, 1/10), (r1y, 1/10)]
    some
      { return1W := r1w
        return1M := r1m
        return3M := r3m
        return6M := r6m
        return1Y := r1y
        volatility := stats.1
        var95 := stats.2.1
        sharpe := stats.2.2.1
        sortino := stats.2.2.2.1
        max_drawdown := stats.2.2.2.2.1
        downside_deviation := stats.2.2.2.2.2
        momentum_score := momentum }

/-- Breakdown block of an `AnalysisResult` (source lines 919-924). -/
structure Breakdowns where
  fundamental : Option FundBreakdown
  technical : Option TechBreakdown
  momentum : Option MomBreakdown
  risk : RiskBreakdown
deriving Repr, DecidableEq

/-- Persisted analysis record (source lines 904-926); `analysis_date` (wall
clock) is outside the model. -/
structure AnalysisResult where
  symbol : String
  company_name : String
  sector : String
  total_score : ℤ
  fundamental_score : ℤ
  technical_score : ℤ
  momentum_score : ℤ
  risk_score : ℤ
  risk_percentage : ℤ
  recommendation : String
  pricing : Pricing
  fundamentals : Option Fundamentals
  technical : TechnicalIndicators
  performance : Option PerformanceMetrics
  breakdowns : Breakdowns
deriving Repr, DecidableEq

/-- Orchestrator (source `analyze_stock`, lines 868-935) over the storage
answers for the symbol: price history, fundamentals row and company row.  The
first component is the returned analysis (absent on the early exit of lines
878-880 and on an exception, i.e. the NULL-beta `TypeError` inside
`calculate_risk_score`); the second component is the trace of
`save_analysis_result` calls (line 929). -/
def analyze_stock (symbol : String) (price_data : Option (List PriceBar))
    (fundamentals : Option Fundamentals) (company_info : Option Company) :
    Option AnalysisResult × List AnalysisResult :=
  match price_data with
  | none => (none, [])
  | some bars =>
    if bars.isEmpty then (none, [])
    else
      let technical := calculate_technical_indicators (some bars)
      let performance := calculate_performance_metrics bars
      let fs := score_fundamental_health fundamentals
      let ts := score_technical_strength (some technical)
      let ms := score_momentum_quality performance
      match calculate_risk_score (some technical) performance fundamentals with
      | none => (none, [])
      | some rs =>
        let total_score := fs.1 + ts.1 + ms.1
        let pricing := calculate_target_pricing fundamentals (some technical) performance
        let recommendation :=
          get_investment_recommendation total_score rs.1 pricing.upside_potential
        let result : AnalysisResult :=
          { symbol := symbol
            company_name := (match company_info with | some c => c.name | none => symbol)
            sector := (match company_info with | some c => c.sector | none => "Unknown")
            total_score := total_score
            fundamental_score := fs.1
            technical_score := ts.1
            momentum_score := ms.1
            risk_score := rs.1
            risk_percentage := rs.1
            recommendation := recommendation
            pricing := pricing
            fundamentals := fundamentals
            technical := technical
            performance := performance
            breakdowns := ⟨fs.2, ts.2, ms.2, rs.2⟩ }
        (some result, [result])

/-- Rank-valued form of the decision table, abstracting the risk/upside
conditions (which do not involve the total score) as booleans. -/
def rankChain (t : ℤ) (A B C D : Bool) : ℕ :=
  if 80 ≤ t ∧ A = true then 6
  else if 70 ≤ t ∧ B = true then 5
  else if 60 ≤ t ∧ C = true then 4
  else if 50 ≤ t ∧ D = true then 3
  else if 40 ≤ t then 2
  else if 30 ≤ t then 1
  else 0

/-- Total score as assembled by `analyze_stock` (source line 893):
`int(fundamental_score + technical_score + momentum_score)`, the sub-scores
being integers already. -/
def total_score_of (f : Option Fundamentals) (t : Option TechnicalIndicators)
    (p : Option PerformanceMetrics) : ℤ :=
  (score_fundamental_health f).1 + (score_technical_strength t).1 +
    (score_momentum_quality p).1

end StockAnalyzer

namespace StockAnalyzer

theorem peEval_bounds (x : Option ℚ) : 0 ≤ (peEval x).1 ∧ (peEval x).1 ≤ 8 := by
  cases x <;> simp only [peEval] <;> (try split_ifs) <;> norm_num

theorem pbEval_bounds (x : Option ℚ) : 0 ≤ (pbEval x).1 ∧ (pbEval x).1 ≤ 4 := by
  cases x <;> simp only [pbEval] <;> (try split_ifs) <;> norm_num

theorem pegEval_bounds (x : Option ℚ) : 0 ≤ (pegEval x).1 ∧ (pegEval x).1 ≤ 3 := by
  cases x <;> simp only [pegEval] <;> (try split_ifs) <;> norm_num

theorem roeEval_bounds (x : Option ℚ) : 0 ≤ (roeEval x).1 ∧ (roeEval x).1 ≤ 8 := by
  cases x <;> simp only [roeEval] <;> (try split_ifs) <;> norm_num

theorem marginEval_bounds (x : Option ℚ) : 0 ≤ (marginEval x).1 ∧ (marginEval x).1 ≤ 4 := by
  cases x <;> simp only [marginEval] <;> (try split_ifs) <;> norm_num

theorem growthEval_bounds (x : Option ℚ) : 0 ≤ (growthEval x).1 ∧ (growthEval x).1 ≤ 3 := by
  cases x <;> simp only [growthEval] <;> (try split_ifs) <;> norm_num

theorem debtEval_bounds (x : Option ℚ) : 0 ≤ (debtEval x).1 ∧ (debtEval x).1 ≤ 5 := by
  cases x <;> simp only [debtEval] <;> (try split_ifs) <;> norm_num

theorem divEval_bounds (x : Option ℚ) : 0 ≤ (divEval x).1 ∧ (divEval x).1 ≤ 3 := by
  cases x <;> simp only [divEval] <;> (try split_ifs) <;> norm_num

theorem payoutEval_bounds (x : Option ℚ) : 0 ≤ (payoutEval x).1 ∧ (payoutEval x).1 ≤ 2 := by
  cases x <;> simp only [payoutEval] <;> (try split_ifs) <;> norm_num

/-- The fundamental sub-score is clamped to `[0, 40]`. -/
theorem score_fundamental_health_bounds (f : Option Fundamentals) :
    0 ≤ (score_fundamental_health f).1 ∧ (score_fundamental_health f).1 ≤ 40 := by
  cases f with
  | none => simp [score_fundamental_health]
  | some f =>
    obtain ⟨h1, h2⟩ := peEval_bounds f.pe
    obtain ⟨h3, h4⟩ := pbEval_bounds f.pb
    obtain ⟨h5, h6⟩ := pegEval_bounds f.peg
    obtain ⟨h7, h8⟩ := roeEval_bounds f.roe
    obtain ⟨h9, h10⟩ := marginEval_bounds f.profit_margin
    obtain ⟨h11, h12⟩ := growthEval_bounds f.revenue_growth
    obtain ⟨h13, h14⟩ := debtEval_bounds f.debt_to_equity
    obtain ⟨h15, h16⟩ := divEval_bounds f.dividend_yield
    obtain ⟨h17, h18⟩ := payoutEval_bounds f.payout
    simp only [score_fundamental_health]
    constructor
    · exact le_min (by linarith) (by norm_num)
    · exact min_le_right _ _

end StockAnalyzer

namespace StockAnalyzer

theorem sma20Cmp_bounds (c s : ℚ) : 0 ≤ (sma20Cmp c s).1 ∧ (sma20Cmp c s).1 ≤ 3 := by
  simp only [sma20Cmp]; split_ifs <;> norm_num

theorem sma50Cmp_bounds (c s : ℚ) : 0 ≤ (sma50Cmp c s).1 ∧ (sma50Cmp c s).1 ≤ 4 := by
  simp only [sma50Cmp]; split_ifs <;> norm_num

theorem sma200Cmp_bounds (c : ℚ) (x : Option ℚ) :
    0 ≤ (sma200Cmp c x).1 ∧ (sma200Cmp c x).1 ≤ 5 := by
  cases x <;> simp only [sma200Cmp] <;> (try split_ifs) <;> norm_num

theorem alignCmp_bounds (a b : ℚ) : 0 ≤ (alignCmp a b).1 ∧ (alignCmp a b).1 ≤ 3 := by
  simp only [alignCmp]; split_ifs <;> norm_num

theorem rsiCmp_bounds (r : ℚ) : 0 ≤ (rsiCmp r).1 ∧ (rsiCmp r).1 ≤ 3 := by
  simp only [rsiCmp]; split_ifs <;> norm_num

theorem macdCmp_bounds (m s : ℚ) : 0 ≤ (macdCmp m s).1 ∧ (macdCmp m s).1 ≤ 2 := by
  simp only [macdCmp]; split_ifs <;> norm_num

theorem volumeCmp_bounds (v : ℚ) : 0 ≤ (volumeCmp v).1 ∧ (volumeCmp v).1 ≤ 2 := by
  simp only [volumeCmp]; split_ifs <;> norm_num

theorem bbCmp_bounds (b : ℚ) : 0 ≤ (bbCmp b).1 ∧ (bbCmp b).1 ≤ 3 := by
  simp only [bbCmp]; split_ifs <;> norm_num

theorem positionEval_bounds (p : ℚ) : 0 ≤ (positionEval p).1 ∧ (positionEval p).1 ≤ 5 := by
  simp only [positionEval]; split_ifs <;> norm_num

/-- The technical sub-score is clamped to `[0, 30]`. -/
theorem score_technical_strength_bounds (t : Option TechnicalIndicators) :
    0 ≤ (score_technical_strength t).1 ∧ (score_technical_strength t).1 ≤ 30 := by
  cases t with
  | none => simp [score_technical_strength]
  | some t =>
    obtain ⟨h1, h2⟩ := sma20Cmp_bounds t.current_price t.sma_20
    obtain ⟨h3, h4⟩ := sma50Cmp_bounds t.current_price t.sma_50
    obtain ⟨h5, h6⟩ := sma200Cmp_bounds t.current_price t.sma_200
    obtain ⟨h7, h8⟩ := alignCmp_bounds t.sma_20 t.sma_50
    obtain ⟨h9, h10⟩ := rsiCmp_bounds t.rsi
    obtain ⟨h11, h12⟩ := macdCmp_bounds t.macd t.macd_signal
    obtain ⟨h13, h14⟩ := volumeCmp_bounds t.volumeQuot
    obtain ⟨h15, h16⟩ := bbCmp_bounds t.bb_position
    obtain ⟨h17, h18⟩ := positionEval_bounds t.week52Position
    simp only [score_technical_strength]
    constructor
    · exact le_min (by linarith) (by norm_num)
    · exact min_le_right _ _

theorem m1Cmp_bounds (r : ℚ) : 0 ≤ (m1Cmp r).1 ∧ (m1Cmp r).1 ≤ 3 := by
  simp only [m1Cmp]; split_ifs <;> norm_num

theorem y1Cmp_bounds (r : ℚ) : 0 ≤ (y1Cmp r).1 ∧ (y1Cmp r).1 ≤ 4 := by
  simp only [y1Cmp]; split_ifs <;> norm_num

theorem sharpeCmp_bounds (v : ℚ) : 0 ≤ (sharpeCmp v).1 ∧ (sharpeCmp v).1 ≤ 6 := by
  simp only [sharpeCmp]; split_ifs <;> norm_num

theorem sortinoCmp_bounds (v : ℚ) : 0 ≤ (sortinoCmp v).1 ∧ (sortinoCmp v).1 ≤ 2 := by
  simp only [sortinoCmp]; split_ifs <;> norm_num

theorem volCmp_bounds (v : ℚ) : 0 ≤ (volCmp v).1 ∧ (volCmp v).1 ≤ 2 := by
  simp only [volCmp]; split_ifs <;> norm_num

theorem ddCmp_bounds (d : ℚ) : 0 ≤ (ddCmp d).1 ∧ (ddCmp d).1 ≤ 3 := by
  simp only [ddCmp]; split_ifs <;> norm_num

/-- The momentum/quality sub-score is clamped to `[0, 30]`. -/
theorem score_momentum_quality_bounds (p : Option PerformanceMetrics) :
    0 ≤ (score_momentum_quality p).1 ∧ (score_momentum_quality p).1 ≤ 30 := by
  cases p with
  | none => simp [score_momentum_quality]
  | some p =>
    obtain ⟨h1, h2⟩ := m1Cmp_bounds (p.return1M.getD 0)
    obtain ⟨h3, h4⟩ := y1Cmp_bounds (p.return1Y.getD 0)
    obtain ⟨h5, h6⟩ := sharpeCmp_bounds p.sharpe
    obtain ⟨h7, h8⟩ := sortinoCmp_bounds p.sortino
    obtain ⟨h9, h10⟩ := volCmp_bounds p.volatility
    obtain ⟨h11, h12⟩ := ddCmp_bounds p.max_drawdown
    have hcnt : ([p.return1W.getD 0, p.return1M.getD 0, p.return3M.getD 0,
        p.return1Y.getD 0].countP (fun r => decide (0 < r))) ≤ 4 := by
      have := List.countP_le_length (l := [p.return1W.getD 0, p.return1M.getD 0,
        p.return3M.getD 0, p.return1Y.getD 0]) (p := fun r => decide (0 < r))
      simpa using this
    have hcnt0 : (0 : ℤ) ≤ ([p.return1W.getD 0, p.return1M.getD 0, p.return3M.getD 0,
        p.return1Y.getD 0].countP (fun r => decide (0 < r)) : ℤ) := by positivity
    have hcnt4 : (([p.return1W.getD 0, p.return1M.getD 0, p.return3M.getD 0,
        p.return1Y.getD 0].countP (fun r => decide (0 < r)) : ℤ)) ≤ 4 := by
      exact_mod_cast hcnt
    simp only [score_momentum_quality]
    constructor
    · exact le_min (by linarith) (by norm_num)
    · exact min_le_right _ _

end StockAnalyzer

namespace StockAnalyzer

theorem volRiskCmp_bounds (v : ℚ) : 5 ≤ volRiskCmp v ∧ volRiskCmp v ≤ 30 := by
  simp only [volRiskCmp]; split_ifs <;> norm_num

theorem betaRiskCmp_bounds (b : ℚ) : 5 ≤ betaRiskCmp b ∧ betaRiskCmp b ≤ 20 := by
  simp only [betaRiskCmp]; split_ifs <;> norm_num

theorem leverageRiskCmp_bounds (d : Option ℚ) :
    0 ≤ leverageRiskCmp d ∧ leverageRiskCmp d ≤ 25 := by
  cases d <;> simp only [leverageRiskCmp] <;> (try split_ifs) <;> norm_num

theorem techRiskCmp_bounds (r b : ℚ) : 0 ≤ techRiskCmp r b ∧ techRiskCmp r b ≤ 15 := by
  simp only [techRiskCmp]; split_ifs <;> norm_num

theorem ddRiskCmp_bounds (d : ℚ) : 0 ≤ ddRiskCmp d ∧ ddRiskCmp d ≤ 10 := by
  simp only [ddRiskCmp]; split_ifs <;> norm_num

end StockAnalyzer

namespace StockAnalyzer

/-- C9 counterexample: a 52-week position of exactly 0 (price at the 52-week
low) awards 0 points from the position component, not the 2 points the claim
asserts for positions ≤ 0.3 — the source guards the table with the truthiness
test `if week_52_pos:`. -/
theorem C9_counterexample : (positionEval 0).1 = 0 ∧ (positionEval 0).1 ≠ 2 := by decide

/-- C9 (amended): for every nonzero 52-week position value the position
component awards 5 points in [0.5, 0.8], else 3 in [0.3, 0.9], else 2 when
≤ 0.3, else 1, first match wins; a position of exactly 0 is falsy and awards
0 with an unknown label (see the counterexample). -/
theorem C9_position_points (p : ℚ) (hp : p ≠ 0) :
    (positionEval p).1 =
      if 1/2 ≤ p ∧ p ≤ 4/5 then 5
      else if 3/10 ≤ p ∧ p ≤ 9/10 then 3
      else if p ≤ 3/10 then 2
      else 1 := by
  unfold positionEval
  rw [if_pos hp]
  split_ifs <;> rfl

/-- C9 witness: the amended table at the concrete position 1/5. -/
theorem C9_witness :
    (positionEval (1/5)).1 =
      if (1:ℚ)/2 ≤ 1/5 ∧ (1:ℚ)/5 ≤ 4/5 then 5
      else if (3:ℚ)/10 ≤ 1/5 ∧ (1:ℚ)/5 ≤ 9/10 then 3
      else if (1:ℚ)/5 ≤ 3/10 then 2
      else 1 :=
  C9_position_points (1/5) (by norm_num)

/-- C6 counterexample: with fundamentals entirely absent the scorer returns
score 0 together with the empty dictionary — a breakdown with no factor
entries at all, not one showing "Unknown" for every factor. -/
theorem C6_counterexample : score_fundamental_health none = (0, none) := rfl

/-- C6 (amended): when fundamentals are entirely absent, the fundamental
scorer returns a score of exactly 0 with an empty breakdown, and the overall
analysis still succeeds and persists exactly one result whose fundamental
sub-score is 0. -/
theorem C6_absent_fundamentals (symbol : String) (bars : List PriceBar) (c : Option Company)
    (h : bars ≠ []) :
    score_fundamental_health none = (0, none) ∧
    ∃ r, analyze_stock symbol (some bars) none c = (some r, [r]) ∧
      r.fundamental_score = 0 ∧ r.breakdowns.fundamental = none := by
  obtain ⟨b, bs, rfl⟩ := List.exists_cons_of_ne_nil h
  exact ⟨rfl, _, rfl, rfl, rfl⟩

/-- C8: for every price series, the `sma_200` field of the indicator set is
present if and only if the series has at least 200 bars; below 200 bars it is
absent and never estimated on a shorter window. -/
theorem C8_sma200_iff (bars : List PriceBar) :
    (calculate_technical_indicators (some bars)).sma_200.isSome = true ↔ 200 ≤ bars.length := by
  simp only [calculate_technical_indicators]
  by_cases h : bars.length < 10
  · rw [if_pos h]
    simp [get_default_technical_indicators]
    omega
  · rw [if_neg h]
    simp only [calcTechFull, List.length_insertionSort]
    rcases le_or_lt 200 bars.length with h2 | h2
    · simp [if_pos h2, h2]
    · rw [if_neg (by omega)]
      simp
      omega

end StockAnalyzer

namespace StockAnalyzer

/-- C5 counterexample: a 5-bar price series has 4 daily returns — below the
length-10 floor — yet the performance engine returns the empty dictionary
(no metrics at all), not the fixed default risk statistics: the `< 10`-bar
guard of source line 214 exits first. -/
theorem C5_counterexample :
    (dailyReturns (([(⟨0, 100, 101, 99, 100, 1000⟩ : PriceBar),
        ⟨1, 101, 102, 100, 101, 1000⟩, ⟨2, 102, 103, 101, 102, 1000⟩,
        ⟨3, 103, 104, 102, 103, 1000⟩, ⟨4, 104, 105, 103, 104, 1000⟩]).map
          (fun b => b.close))).length < 10 ∧
    calculate_performance_metrics
      [(⟨0, 100, 101, 99, 100, 1000⟩ : PriceBar),
       ⟨1, 101, 102, 100, 101, 1000⟩, ⟨2, 102, 103, 101, 102, 1000⟩,
       ⟨3, 103, 104, 102, 103, 1000⟩, ⟨4, 104, 105, 103, 104, 1000⟩] = none := by
  constructor
  · decide
  · rfl

/-- C5 (amended): for every price series of at least 10 bars whose
daily-return count is at most 10, the performance engine returns the fixed
default risk statistics volatility 0.3, VaR −0.05, Sharpe 0, max drawdown 0,
downside deviation 0.2, Sortino 0; below 10 bars it returns an empty result
instead (see the counterexample). -/
theorem C5_risk_stat_defaults (df : List PriceBar) (h10 : 10 ≤ df.length)
    (hdr : (dailyReturns (df.map (fun b => b.close))).length ≤ 10) :
    ∃ m, calculate_performance_metrics df = some m ∧
      m.volatility = 3/10 ∧ m.var95 = -1/20 ∧ m.sharpe = 0 ∧
      m.max_drawdown = 0 ∧ m.downside_deviation = 1/5 ∧ m.sortino = 0 := by
  simp only [calculate_performance_metrics]
  rw [if_neg (by omega)]
  have hd : ¬ (10 < (dailyReturns (df.map (fun b => b.close))).length) := by omega
  rw [if_neg hd]
  refine ⟨_, rfl, ?_, ?_, ?_, ?_, ?_, ?_⟩ <;> rfl

/-- C7: for every price series of fewer than 10 bars the indicator engine
returns, without raising, exactly the documented default indicator set:
current price for all moving averages, RSI 50, bands at ±10% of price, ATR 2%
of price, 52-week position 0.5, trend strength 0, `sma_200` absent,
Bollinger position 0.5, volume ratio 1, volatility 0.3, support at
price·0.95 and resistance at price·1.05. -/
theorem C7_short_series_defaults (bars : List PriceBar) (h : bars.length < 10) :
    calculate_technical_indicators (some bars) =
      { current_price := lastClose (some bars)
        sma_20 := lastClose (some bars)
        sma_50 := lastClose (some bars)
        sma_200 := none
        rsi := 50
        bb_position := 1/2
        bb_upper := lastClose (some bars) * (11/10)
        bb_lower := lastClose (some bars) * (9/10)
        macd := 0
        macd_signal := 0
        macd_histogram := 0
        volumeQuot := 1
        atr := lastClose (some bars) * (1/50)
        week52High := lastClose (some bars)
        week52Low := lastClose (some bars)
        week52Position := 1/2
        trend_strength := 0
        support_level := lastClose (some bars) * (19/20)
        resistance_level := lastClose (some bars) * (21/20)
        volatility := 3/10 } := by
  simp only [calculate_technical_indicators]
  rw [if_pos h]
  rfl

/-- C2: for every fundamentals / technical / performance input whose current
price is nonnegative (prices of market data; for a negative price the stated
interval would be empty), the target price lies in
`[current_price·1.05, current_price·2.0]`. -/
theorem C2_target_price_band (f : Option Fundamentals) (t : Option TechnicalIndicators)
    (p : Option PerformanceMetrics)
    (h : 0 ≤ (calculate_target_pricing f t p).current_price) :
    (calculate_target_pricing f t p).current_price * (21/20) ≤
        (calculate_target_pricing f t p).target_price ∧
    (calculate_target_pricing f t p).target_price ≤
        (calculate_target_pricing f t p).current_price * 2 := by
  simp only [calculate_target_pricing] at h ⊢
  constructor
  · exact le_max_left _ _
  · exact max_le (by linarith) (le_trans (min_le_right _ _) le_rfl)

end StockAnalyzer

namespace StockAnalyzer

set_option maxHeartbeats 3000000 in
theorem rankChain_mono (t1 t2 : ℤ) (A B C D : Bool) (h : t1 ≤ t2) :
    rankChain t1 A B C D ≤ rankChain t2 A B C D := by
  unfold rankChain
  cases A <;> cases B <;> cases C <;> cases D <;>
    simp only [Bool.false_eq_true, and_false, and_true, if_false] <;>
    split_ifs <;> omega

theorem recRank_eq_rankChain (t r : ℤ) (u : ℚ) :
    recRank (get_investment_recommendation t r u) =
      rankChain t (decide (r < 40 ∧ 3/20 < u)) (decide (r < 50 ∧ 1/10 < u))
        (decide (r < 60)) (decide (r < 70)) := by
  unfold get_investment_recommendation rankChain
  simp only [decide_eq_true_eq]
  split_ifs <;> rfl

/-- C3: holding the risk score and upside potential fixed, a larger total
score never produces a lower-ranked recommendation in the decision table's
order SELL < CONSIDER SELLING < WEAK HOLD < HOLD < MODERATE BUY < BUY <
STRONG BUY. -/
theorem C3_recommendation_monotone (t1 t2 risk : ℤ) (upside : ℚ) (h : t1 ≤ t2) :
    recRank (get_investment_recommendation t1 risk upside) ≤
      recRank (get_investment_recommendation t2 risk upside) := by
  rw [recRank_eq_rankChain, recRank_eq_rankChain]
  exact rankChain_mono t1 t2 _ _ _ _ h


/-- C3 witness: monotonicity at the concrete pair of totals 50 ≤ 90 with
risk 30 and upside 20%. -/
theorem C3_witness :
    (50 : ℤ) ≤ 90 ∧
    recRank (get_investment_recommendation 50 30 (1/5)) ≤
      recRank (get_investment_recommendation 90 30 (1/5)) :=
  ⟨by norm_num, C3_recommendation_monotone 50 90 30 (1/5) (by norm_num)⟩

/-- Bounds of the capped risk sum, for any component inputs. -/
theorem riskTotal_spec (v be : ℚ) (l : Option ℚ) (r bb d : ℚ) :
    10 ≤ min 100 (volRiskCmp v + betaRiskCmp be + leverageRiskCmp l +
        techRiskCmp r bb + ddRiskCmp d) ∧
    min 100 (volRiskCmp v + betaRiskCmp be + leverageRiskCmp l +
        techRiskCmp r bb + ddRiskCmp d) ≤ 100 ∧
    5 ≤ volRiskCmp v ∧ 5 ≤ betaRiskCmp be ∧ 0 ≤ leverageRiskCmp l ∧
    0 ≤ techRiskCmp r bb ∧ 0 ≤ ddRiskCmp d := by
  obtain ⟨v1, v2⟩ := volRiskCmp_bounds v
  obtain ⟨b1, b2⟩ := betaRiskCmp_bounds be
  obtain ⟨l1, l2⟩ := leverageRiskCmp_bounds l
  obtain ⟨t1, t2⟩ := techRiskCmp_bounds r bb
  obtain ⟨d1, d2⟩ := ddRiskCmp_bounds d
  refine ⟨?_, ?_, v1, b1, l1, t1, d1⟩ <;> omega

/-- C10: whenever the risk scorer returns (it raises `TypeError` only for a
fundamentals row with NULL beta), the risk score lies in [10, 100]: the
volatility and beta components each contribute at least 5, every other
component is nonnegative, and the sum is capped at 100 — a risk score below
10 is impossible despite the documented 0-100 range. -/
theorem C10_risk_score_range (t : Option TechnicalIndicators) (p : Option PerformanceMetrics)
    (f : Option Fundamentals) (score : ℤ) (bd : RiskBreakdown)
    (h : calculate_risk_score t p f = some (score, bd)) :
    10 ≤ score ∧ score ≤ 100 ∧
    5 ≤ bd.volatility_risk ∧ 5 ≤ bd.beta_risk ∧ 0 ≤ bd.leverage_risk ∧
    0 ≤ bd.technical_risk ∧ 0 ≤ bd.drawdown_risk ∧
    score = min 100 (bd.volatility_risk + bd.beta_risk + bd.leverage_risk +
      bd.technical_risk + bd.drawdown_risk) := by
  cases f with
  | none =>
    simp only [calculate_risk_score] at h
    obtain ⟨hs, hbd⟩ := Prod.mk.injEq .. ▸ Option.some.inj h
    subst hs
    subst hbd
    simpa using riskTotal_spec _ _ _ _ _ _
  | some ff =>
    cases hfb : ff.beta with
    | none =>
      simp only [calculate_risk_score, hfb] at h
      exact absurd h (by simp)
    | some beta =>
      simp only [calculate_risk_score, hfb] at h
      obtain ⟨hs, hbd⟩ := Prod.mk.injEq .. ▸ Option.some.inj h
      subst hs
      subst hbd
      simpa using riskTotal_spec _ _ _ _ _ _

end StockAnalyzer

namespace StockAnalyzer

/-- C1: for every combination of fundamentals, technical indicators and
performance metrics, the total score equals exactly the sum of the
fundamental, technical and momentum sub-scores, each already clamped to its
stated maximum (40, 30, 30) and nonnegative, so the total lies in
[0, 100]. -/
theorem C1_total_score_clamped_sum (f : Option Fundamentals)
    (t : Option TechnicalIndicators) (p : Option PerformanceMetrics) :
    total_score_of f t p =
      (score_fundamental_health f).1 + (score_technical_strength t).1 +
        (score_momentum_quality p).1 ∧
    0 ≤ (score_fundamental_health f).1 ∧ (score_fundamental_health f).1 ≤ 40 ∧
    0 ≤ (score_technical_strength t).1 ∧ (score_technical_strength t).1 ≤ 30 ∧
    0 ≤ (score_momentum_quality p).1 ∧ (score_momentum_quality p).1 ≤ 30 ∧
    0 ≤ total_score_of f t p ∧ total_score_of f t p ≤ 100 := by
  obtain ⟨a1, a2⟩ := score_fundamental_health_bounds f
  obtain ⟨b1, b2⟩ := score_technical_strength_bounds t
  obtain ⟨c1, c2⟩ := score_momentum_quality_bounds p
  refine ⟨rfl, a1, a2, b1, b2, c1, c2, ?_, ?_⟩ <;> (simp only [total_score_of]; omega)

/-- C4: when the price history is absent or empty, `analyze_stock` returns
no result and persists nothing; when the analysis succeeds, exactly one
persistence call is made, and the persisted record is the returned result
with every field equal to the output of the corresponding computation step
(indicators, performance, the four scores, pricing, recommendation,
breakdowns) — persistence happens once, after all computations. -/
theorem C4_persist_once_after_all (symbol : String) (pd : Option (List PriceBar))
    (f : Option Fundamentals) (c : Option Company) :
    ((pd = none ∨ pd = some []) → analyze_stock symbol pd f c = (none, [])) ∧
    (∀ r, (analyze_stock symbol pd f c).1 = some r →
      (analyze_stock symbol pd f c).2 = [r] ∧
      ∃ bars rs, pd = some bars ∧ bars ≠ [] ∧
        calculate_risk_score (some (calculate_technical_indicators (some bars)))
          (calculate_performance_metrics bars) f = some rs ∧
        r.technical = calculate_technical_indicators (some bars) ∧
        r.performance = calculate_performance_metrics bars ∧
        r.fundamental_score = (score_fundamental_health f).1 ∧
        r.technical_score = (score_technical_strength (some r.technical)).1 ∧
        r.momentum_score = (score_momentum_quality r.performance).1 ∧
        r.risk_score = rs.1 ∧
        r.total_score = r.fundamental_score + r.technical_score + r.momentum_score ∧
        r.pricing = calculate_target_pricing f (some r.technical) r.performance ∧
        r.recommendation = get_investment_recommendation r.total_score r.risk_score
          r.pricing.upside_potential ∧
        r.breakdowns = ⟨(score_fundamental_health f).2,
          (score_technical_strength (some r.technical)).2,
          (score_momentum_quality r.performance).2, rs.2⟩) := by
  constructor
  · rintro (rfl | rfl) <;> rfl
  · intro r hr
    cases pd with
    | none => exact absurd hr (by simp [analyze_stock])
    | some bars =>
      cases bars with
      | nil => exact absurd hr (by simp [analyze_stock])
      | cons b bs =>
        simp only [analyze_stock, List.isEmpty_cons, Bool.false_eq_true, if_false] at hr ⊢
        split at hr
        · exact absurd hr (by simp)
        · rename_i rs heq
          simp only [Option.some.injEq] at hr
          subst hr
          exact ⟨rfl, b :: bs, rs, rfl, by simp, heq, rfl, rfl, rfl, rfl, rfl, rfl, rfl,
            rfl, rfl, rfl⟩

/-- C4 witness: the absent-history branch at a concrete symbol. -/
theorem C4_witness : analyze_stock "XYZ" none none none = (none, []) :=
  (C4_persist_once_after_all "XYZ" none none none).1 (Or.inl rfl)

/-- C2 witness: the target-price band at the all-absent input, where the
current price falls back to 100. -/
theorem C2_witness :
    0 ≤ (calculate_target_pricing none none none).current_price ∧
    ((calculate_target_pricing none none none).current_price * (21/20) ≤
        (calculate_target_pricing none none none).target_price ∧
     (calculate_target_pricing none none none).target_price ≤
        (calculate_target_pricing none none none).current_price * 2) :=
  ⟨by decide, C2_target_price_band none none none (by decide)⟩

/-- C10 witness: the risk bounds at the all-absent input, whose risk score
evaluates to 25. -/
theorem C10_witness :
    10 ≤ (25 : ℤ) ∧ (25 : ℤ) ≤ 100 ∧
    5 ≤ (⟨10, 5, 10, 0, 0⟩ : RiskBreakdown).volatility_risk ∧
    5 ≤ (⟨10, 5, 10, 0, 0⟩ : RiskBreakdown).beta_risk ∧
    0 ≤ (⟨10, 5, 10, 0, 0⟩ : RiskBreakdown).leverage_risk ∧
    0 ≤ (⟨10, 5, 10, 0, 0⟩ : RiskBreakdown).technical_risk ∧
    0 ≤ (⟨10, 5, 10, 0, 0⟩ : RiskBreakdown).drawdown_risk ∧
    (25 : ℤ) = min 100 ((⟨10, 5, 10, 0, 0⟩ : RiskBreakdown).volatility_risk +
      (⟨10, 5, 10, 0, 0⟩ : RiskBreakdown).beta_risk +
      (⟨10, 5, 10, 0, 0⟩ : RiskBreakdown).leverage_risk +
      (⟨10, 5, 10, 0, 0⟩ : RiskBreakdown).technical_risk +
      (⟨10, 5, 10, 0, 0⟩ : RiskBreakdown).drawdown_risk) :=
  C10_risk_score_range none none none 25 ⟨10, 5, 10, 0, 0⟩ (by
    simp [calculate_risk_score, volRiskCmp, betaRiskCmp, leverageRiskCmp, techRiskCmp,
      ddRiskCmp]
    norm_num)

/-- C6 witness: the amended claim at a concrete one-bar price history. -/
theorem C6_witness :
    ([(⟨0, 100, 101, 99, 100, 1000⟩ : PriceBar)] ≠ []) ∧
    (score_fundamental_health none = (0, none) ∧
     ∃ r, analyze_stock "XYZ" (some [⟨0, 100, 101, 99, 100, 1000⟩]) none none =
        (some r, [r]) ∧
       r.fundamental_score = 0 ∧ r.breakdowns.fundamental = none) :=
  ⟨by simp, C6_absent_fundamentals "XYZ" [⟨0, 100, 101, 99, 100, 1000⟩] none (by simp)⟩

end StockAnalyzer

namespace StockAnalyzer

/-- C5 witness: the amended claim at a concrete 10-bar series (9 daily
returns). -/
theorem C5_witness :
    10 ≤ ([(⟨0, 100, 101, 99, 100, 1000⟩ : PriceBar), ⟨1, 100, 101, 99, 101, 1000⟩, ⟨2, 100, 101, 99, 102, 1000⟩, ⟨3, 100, 101, 99, 103, 1000⟩, ⟨4, 100, 101, 99, 104, 1000⟩, ⟨5, 100, 101, 99, 105, 1000⟩, ⟨6, 100, 101, 99, 106, 1000⟩, ⟨7, 100, 101, 99, 107, 1000⟩, ⟨8, 100, 101, 99, 108, 1000⟩, ⟨9, 100, 101, 99, 109, 1000⟩] : List PriceBar).length ∧
    (dailyReturns (([(⟨0, 100, 101, 99, 100, 1000⟩ : PriceBar), ⟨1, 100, 101, 99, 101, 1000⟩, ⟨2, 100, 101, 99, 102, 1000⟩, ⟨3, 100, 101, 99, 103, 1000⟩, ⟨4, 100, 101, 99, 104, 1000⟩, ⟨5, 100, 101, 99, 105, 1000⟩, ⟨6, 100, 101, 99, 106, 1000⟩, ⟨7, 100, 101, 99, 107, 1000⟩, ⟨8, 100, 101, 99, 108, 1000⟩, ⟨9, 100, 101, 99, 109, 1000⟩] : List PriceBar).map (fun b => b.close))).length ≤ 10 ∧
    ∃ m, calculate_performance_metrics [(⟨0, 100, 101, 99, 100, 1000⟩ : PriceBar), ⟨1, 100, 101, 99, 101, 1000⟩, ⟨2, 100, 101, 99, 102, 1000⟩, ⟨3, 100, 101, 99, 103, 1000⟩, ⟨4, 100, 101, 99, 104, 1000⟩, ⟨5, 100, 101, 99, 105, 1000⟩, ⟨6, 100, 101, 99, 106, 1000⟩, ⟨7, 100, 101, 99, 107, 1000⟩, ⟨8, 100, 101, 99, 108, 1000⟩, ⟨9, 100, 101, 99, 109, 1000⟩] = some m ∧
      m.volatility = 3/10 ∧ m.var95 = -1/20 ∧ m.sharpe = 0 ∧
      m.max_drawdown = 0 ∧ m.downside_deviation = 1/5 ∧ m.sortino = 0 :=
  ⟨by decide, by decide, C5_risk_stat_defaults _ (by decide) (by decide)⟩

/-- C7 witness: the default indicator set at a concrete 3-bar series. -/
theorem C7_witness :
    (([(⟨0, 100, 101, 99, 100, 1000⟩ : PriceBar), ⟨1, 101, 102, 100, 102, 1100⟩,
       ⟨2, 102, 103, 101, 101, 1200⟩] : List PriceBar).length < 10) ∧
    calculate_technical_indicators (some [⟨0, 100, 101, 99, 100, 1000⟩,
        ⟨1, 101, 102, 100, 102, 1100⟩, ⟨2, 102, 103, 101, 101, 1200⟩]) =
      { current_price := lastClose (some [⟨0, 100, 101, 99, 100, 1000⟩,
          ⟨1, 101, 102, 100, 102, 1100⟩, ⟨2, 102, 103, 101, 101, 1200⟩])
        sma_20 := lastClose (some [⟨0, 100, 101, 99, 100, 1000⟩,
          ⟨1, 101, 102, 100, 102, 1100⟩, ⟨2, 102, 103, 101, 101, 1200⟩])
        sma_50 := lastClose (some [⟨0, 100, 101, 99, 100, 1000⟩,
          ⟨1, 101, 102, 100, 102, 1100⟩, ⟨2, 102, 103, 101, 101, 1200⟩])
        sma_200 := none
        rsi := 50
        bb_position := 1/2
        bb_upper := lastClose (some [⟨0, 100, 101, 99, 100, 1000⟩,
          ⟨1, 101, 102, 100, 102, 1100⟩, ⟨2, 102, 103, 101, 101, 1200⟩]) * (11/10)
        bb_lower := lastClose (some [⟨0, 100, 101, 99, 100, 1000⟩,
          ⟨1, 101, 102, 100, 102, 1100⟩, ⟨2, 102, 103, 101, 101, 1200⟩]) * (9/10)
        macd := 0
        macd_signal := 0
        macd_histogram := 0
        volumeQuot := 1
        atr := lastClose (some [⟨0, 100, 101, 99, 100, 1000⟩,
          ⟨1, 101, 102, 100, 102, 1100⟩, ⟨2, 102, 103, 101, 101, 1200⟩]) * (1/50)
        week52High := lastClose (some [⟨0, 100, 101, 99, 100, 1000⟩,
          ⟨1, 101, 102, 100, 102, 1100⟩, ⟨2, 102, 103, 101, 101, 1200⟩])
        week52Low := lastClose (some [⟨0, 100, 101, 99, 100, 1000⟩,
          ⟨1, 101, 102, 100, 102, 1100⟩, ⟨2, 102, 103, 101, 101, 1200⟩])
        week52Position := 1/2
        trend_strength := 0
        support_level := lastClose (some [⟨0, 100, 101, 99, 100, 1000⟩,
          ⟨1, 101, 102, 100, 102, 1100⟩, ⟨2, 102, 103, 101, 101, 1200⟩]) * (19/20)
        resistance_level := lastClose (some [⟨0, 100, 101, 99, 100, 1000⟩,
          ⟨1, 101, 102, 100, 102, 1100⟩, ⟨2, 102, 103, 101, 101, 1200⟩]) * (21/20)
        volatility := 3/10 } :=
  ⟨by decide, C7_short_series_defaults _ (by decide)⟩

end StockAnalyzer
